import Mathlib

/-!
# Shallow embedding of the AI-Speak-Up-Server complaint/taxonomy core

This file embeds, in Lean, the data model and operations of the complaint
lifecycle and aggregate-count engine of the repository:

* `src/models/Complaint.js` — complaint schema, the pre-save hook that
  recomputes `priorityValue` and `updatedAt`, and the post-save hook that
  reconciles the denormalized counters on the owning category.
* `src/models/Category.js` — category/subcategory schema and the
  `calculateTotalComplaints` method.
* `src/routes/complaints.js` — the route handlers for create, update,
  delete, status update, comments and sharing.
* the category controller (`getCategories` / `deleteCategory` /
  `deleteSubCategory` / `toggleFrequentStatus`).

Mongo object ids are modelled as `Nat`; dates as `Nat` ticks supplied by the
caller as `now`; the database as in-memory lists of documents.  Fallible
external collaborators (file upload, outbound email) are modelled by `Bool`
parameters saying whether the collaborator call succeeded; when such a call
throws, the Express handler catch-block answers 500.
-/

namespace SpeakUp

/-- The `priority` enum of the complaint schema: `low | medium | high`. -/
inductive Priority where
  | low
  | medium
  | high
deriving DecidableEq

/-- The `status` enum of the complaint schema:
`pending | in-progress | resolved | rejected`. -/
inductive Status where
  | pending
  | inProgress
  | resolved
  | rejected
deriving DecidableEq

/-- One entry of `sharedOn.email`: `{ to, date }`. -/
structure EmailShare where
  toAddr : String
  date : Nat
deriving DecidableEq

/-- One entry of `sharedOn.social`: `{ platform, date }`. -/
structure SocialShare where
  platform : String
  date : Nat
deriving DecidableEq

/-- One entry of `comments`: `{ text, user, createdAt }`. -/
structure CommentEntry where
  text : String
  user : Nat
  createdAt : Nat
deriving DecidableEq

/-- The `resolution` subdocument: `{ text, date, by }`. -/
structure Resolution where
  text : String
  byUser : Nat
  date : Nat
deriving DecidableEq

/-- The `aiResponse` subdocument: `{ category, suggestion, confidence }`.  The confidence
is the literal 0.9 in the source; it is carried here as the exact fraction
numerator/denominator pair (9, 10). -/
structure AiResponse where
  category : String
  suggestion : String
  confidenceNum : Nat
  confidenceDen : Nat
deriving DecidableEq

/-- A persisted Complaint document (`src/models/Complaint.js`). -/
structure Complaint where
  id : Nat
  user : Nat
  title : String
  description : String
  category : Nat
  subCategory : Nat
  status : Status
  priority : Priority
  priorityValue : Nat
  attachments : List String
  aiResponse : Option AiResponse
  assignedTo : Option Nat
  resolution : Option Resolution
  comments : List CommentEntry
  sharedEmail : List EmailShare
  sharedSocial : List SocialShare
  createdAt : Nat
  updatedAt : Nat
deriving DecidableEq

/-- An embedded SubCategory document (`src/models/Category.js`).
The schema declares `name`, `icon`, `description`, `totalComplaints`
and timestamps. -/
structure SubCategory where
  sid : Nat
  name : String
  icon : String
  descr : String
  totalComplaints : Nat
  createdAt : Nat
  updatedAt : Nat
deriving DecidableEq

/-- One entry of `userCounts`: `{ user, count }`. -/
structure UserCount where
  user : Nat
  count : Nat
deriving DecidableEq

/-- A persisted Category document (`src/models/Category.js`).
Note that the schema declares no `isFrequentlyUsed` path: under the default
strict mode of the store, writes to that name are not persisted, so it is
not a field of the persisted document. -/
structure Category where
  cid : Nat
  name : String
  icon : String
  descr : String
  subCategories : List SubCategory
  totalComplaints : Nat
  userCounts : List UserCount
  createdAt : Nat
  updatedAt : Nat
deriving DecidableEq

/-- The two collections the modelled handlers touch. -/
structure DB where
  complaints : List Complaint
  categories : List Category
deriving DecidableEq

/-- The `role` of the authenticated principal. -/
inductive Role where
  | user
  | admin
deriving DecidableEq

/-- The authenticated principal (`req.user`) as the handlers consume it. -/
structure Principal where
  id : Nat
  role : Role
  isVerified : Bool
deriving DecidableEq

/-- Outcome of a route handler: an HTTP status code with a body, or an
error status code with a message (the `res.status(..).json({message})`
branches, including the catch-all 500). -/
inductive ApiResult (α : Type) where
  | ok (code : Nat) (body : α)
  | apiError (code : Nat) (message : String)
deriving DecidableEq

/-- True exactly on the success constructor. -/
def ApiResult.isOk {α : Type} [DecidableEq α] : ApiResult α → Bool
  | .ok _ _ => true
  | .apiError _ _ => false

/-! ## List helpers mirroring the store semantics

`Array.prototype.find`, mongoose `DocumentArray.id(...)` and
`findOneAndUpdate` / `findOneAndDelete` all act on the FIRST matching
element; the helpers below replace or remove exactly that element. -/

/-- Replace the first element satisfying `p` by its image under `f`. -/
def updateFirst {α : Type} (p : α → Bool) (f : α → α) : List α → List α
  | [] => []
  | x :: xs => if p x then f x :: xs else x :: updateFirst p f xs

/-- Remove the first element satisfying `p`. -/
def removeFirst {α : Type} (p : α → Bool) : List α → List α
  | [] => []
  | x :: xs => if p x then xs else x :: removeFirst p xs

/-! ## Complaint model hooks (`src/models/Complaint.js`) -/

/-- The `switch (this.priority)` of the pre-save hook:
low maps to 0, high to 2, the default branch (medium) to 1. -/
def priorityToValue : Priority → Nat
  | .low => 0
  | .high => 2
  | .medium => 1

/-- The hook `complaintSchema.pre("save")`: bump `updatedAt` and recompute
`priorityValue` from `priority`.  This runs only on document `save()`,
not on `findOneAndUpdate` / `findOneAndDelete`. -/
def preSave (now : Nat) (c : Complaint) : Complaint :=
  { c with updatedAt := now, priorityValue := priorityToValue c.priority }

/-- The query `Complaint.countDocuments(filter)` over the complaints collection. -/
def countDocuments (complaints : List Complaint) (p : Complaint → Bool) : Nat :=
  (complaints.filter p).length

/-- The method `categorySchema.methods.calculateTotalComplaints`: set
`totalComplaints` to the sum of the subcategory counts, but only when the
`subCategories` array is non-empty (the JS body is guarded by
`this.subCategories && this.subCategories.length > 0`). -/
def calculateTotalComplaints (c : Category) : Category :=
  if c.subCategories.length > 0 then
    { c with totalComplaints := (c.subCategories.map (·.totalComplaints)).sum }
  else c

/-- The hook `categorySchema.pre("save")`: bump `updatedAt` of the category and of
every embedded subcategory. -/
def categoryPreSave (now : Nat) (c : Category) : Category :=
  { c with updatedAt := now,
           subCategories := c.subCategories.map (fun s => { s with updatedAt := now }) }

/-- Persist a (loaded and mutated) category document back into its
collection: `await category.save()`, running the category pre-save hook. -/
def saveCategory (now : Nat) (cat : Category) (db : DB) : DB :=
  let cats := updateFirst (fun c => c.cid == cat.cid) (fun _ => categoryPreSave now cat) db.categories
  { db with categories := cats }

/-- The subcategory step of `complaintSchema.post("save")`: recount the
saved complaint subcategory from ground truth
(`countDocuments {category, subCategory}`).  `complaints` is the
collection as seen after the triggering save. -/
def reconcileSubCounts (complaints : List Complaint) (saved : Complaint)
    (cat : Category) : Category :=
  let subRecount : SubCategory → SubCategory := fun s =>
    { s with totalComplaints :=
        countDocuments complaints (fun k => k.category == saved.category && k.subCategory == saved.subCategory) }
  { cat with subCategories := updateFirst (fun s => s.sid == saved.subCategory) subRecount cat.subCategories }

/-- The `userCounts` step of the post-save hook: push `{user, count: 1}`
when the saved complaint user has no entry, otherwise recount that entry
from ground truth. -/
def reconcileUserCounts (complaints : List Complaint) (saved : Complaint)
    (cat : Category) : Category :=
  let userRecount : UserCount → UserCount := fun uc =>
    { uc with count :=
        countDocuments complaints (fun k => k.category == saved.category && k.user == saved.user) }
  match cat.userCounts.find? (fun uc => uc.user == saved.user) with
  | none => { cat with userCounts := cat.userCounts ++ [⟨saved.user, 1⟩] }
  | some _ =>
      { cat with userCounts := updateFirst (fun uc => uc.user == saved.user) userRecount cat.userCounts }

/-- The body of `complaintSchema.post("save")` applied to the loaded
category document of the saved complaint: subcategory recount, then the
`userCounts` update, then `calculateTotalComplaints()`. -/
def reconcileCategory (complaints : List Complaint) (saved : Complaint)
    (cat : Category) : Category :=
  calculateTotalComplaints (reconcileUserCounts complaints saved (reconcileSubCounts complaints saved cat))

/-- The hook `complaintSchema.post("save")`: load the category of the saved
complaint; when present, reconcile it and save it back.  When the category
does not exist the hook does nothing. -/
def postSaveHook (now : Nat) (saved : Complaint) (db : DB) : DB :=
  match db.categories.find? (fun c => c.cid == saved.category) with
  | none => db
  | some cat => saveCategory now (reconcileCategory db.complaints saved cat) db

/-- Persisting with `await complaint.save()`: run the pre-save hook, upsert the document
into the collection (replace the document with this id, or append a new
one), then run the post-save reconciliation hook against the updated
collection. -/
def saveComplaint (now : Nat) (c : Complaint) (db : DB) : DB :=
  let c2 := preSave now c
  let complaints2 :=
    if db.complaints.any (fun k => k.id == c2.id) then
      updateFirst (fun k => k.id == c2.id) (fun _ => c2) db.complaints
    else
      db.complaints ++ [c2]
  postSaveHook now c2 { db with complaints := complaints2 }

/-! ## Route handlers (`src/routes/complaints.js`) -/

/-- Trimming as the validator chain applies it: strip leading and
trailing whitespace. -/
def jsTrim (s : String) : String :=
  ⟨((s.data.dropWhile Char.isWhitespace).reverse.dropWhile Char.isWhitespace).reverse⟩

/-- Request body of `POST /complaints` after multer has stored the files:
the text fields plus the list of uploaded attachment URLs.  `category` and
`subCategory` are `Option` because a request may omit them. -/
structure CreateInput where
  title : String
  description : String
  category : Option Nat
  subCategory : Option Nat
  priority : Option Priority
  attachments : List String
deriving DecidableEq

/-- The `complaintValidation` middleware chain:
`title` trimmed length at least 5, `description` trimmed length at least
10, `category` present and non-empty. -/
def complaintValidationOk (i : CreateInput) : Bool :=
  5 ≤ (jsTrim i.title).length && 10 ≤ (jsTrim i.description).length && i.category.isSome

/-- The hard-coded `aiSuggestion` constant of the create handler. -/
def aiSuggestionText : String :=
  "Can\x27t provide suggestion as the developer was broke and not able to afford the key as he already have utilized the free credits on his other personal projects"

/-- Handler of `POST /complaints` (`verifiedAuth`): validate, upload attachments,
build the complaint (status defaults to pending, priority to medium),
`save()` it (running both hooks), then await the creation email.

* `uploadOk` — whether the attachment upload collaborator succeeded;
  a throw there is caught and answered 500 before anything is persisted.
* `notifyOk` — whether `sendComplaintCreationEmail` succeeded; that call
  follows the save, and a throw is caught and answered 500, with the saved
  complaint (and its reconciliation) left in place. -/
def createComplaint (p : Principal) (i : CreateInput) (uploadOk notifyOk : Bool)
    (newId now : Nat) (db : DB) : ApiResult Complaint × DB :=
  if !p.isVerified then (.apiError 403 "Email verification required", db)
  else if !complaintValidationOk i then (.apiError 400 "validation failed", db)
  else if !uploadOk then (.apiError 500 "Server error", db)
  else
    match i.category, i.subCategory with
    | some catId, some subId =>
      let c : Complaint :=
        { id := newId
          user := p.id
          title := i.title
          description := i.description
          category := catId
          subCategory := subId
          status := .pending
          priority := i.priority.getD .medium
          priorityValue := 1
          attachments := i.attachments
          aiResponse := some ⟨toString catId, aiSuggestionText, 9, 10⟩
          assignedTo := none
          resolution := none
          comments := []
          sharedEmail := []
          sharedSocial := []
          createdAt := now
          updatedAt := now }
      let db2 := saveComplaint now c db
      if notifyOk then (.ok 201 (preSave now c), db2)
      else (.apiError 500 "Server error", db2)
    | _, _ =>
      -- the schema marks category/subCategory required: `save()` throws a
      -- validation error, caught by the handler catch-block
      (.apiError 500 "Server error", db)

/-- Handler of `DELETE /complaints/:id` (`auth`): `findOneAndDelete({_id, user})` —
remove the first complaint matching id AND requesting user; 404 when no
match.  No category reconciliation happens on this path: neither the
pre-save nor the post-save hook fires on `findOneAndDelete`. -/
def deleteComplaint (p : Principal) (id : Nat) (db : DB) : ApiResult String × DB :=
  match db.complaints.find? (fun k => k.id == id && k.user == p.id) with
  | none => (.apiError 404 "Complaint not found", db)
  | some _ =>
      let complaints2 := removeFirst (fun k => k.id == id && k.user == p.id) db.complaints
      (.ok 200 "Complaint deleted successfully", { db with complaints := complaints2 })

/-- Request body of `PUT /complaints/:id`.  `findOneAndUpdate` applies
`$set: req.body`, so ANY schema path present in the body is written; the
fields below are the ones this development reasons about (all other schema
paths behave identically under `$set`). -/
structure UpdateBody where
  title : Option String
  description : Option String
  category : Option Nat
  priority : Option Priority
  status : Option Status
  priorityValue : Option Nat
  subCategory : Option Nat
deriving DecidableEq

/-- The `PUT /complaints/:id` validator chain: each of
`title`/`description`/`category` is optional but must be non-empty when
present, `priority` must be in the enum when present (guaranteed here by
the type). -/
def updateValidationOk (b : UpdateBody) : Bool :=
  (match b.title with | some t => !(jsTrim t == "") | none => true)
  && (match b.description with | some d => !(jsTrim d == "") | none => true)

/-- Applying `$set: req.body` on a complaint document: write each path present in
the body, leave every other path untouched. -/
def applySet (b : UpdateBody) (c : Complaint) : Complaint :=
  { c with
    title := b.title.getD c.title
    description := b.description.getD c.description
    category := b.category.getD c.category
    priority := b.priority.getD c.priority
    status := b.status.getD c.status
    priorityValue := b.priorityValue.getD c.priorityValue
    subCategory := b.subCategory.getD c.subCategory }

/-- Handler of `PUT /complaints/:id` (`auth`): validate, then
`findOneAndUpdate({_id, user}, {$set: req.body}, {new: true})` — no save
middleware runs, so `priorityValue` and `updatedAt` are NOT recomputed and
no reconciliation happens — then await the status-update email
(`notifyOk`; a throw is caught and answered 500 with the update kept). -/
def updateComplaint (p : Principal) (id : Nat) (b : UpdateBody) (notifyOk : Bool)
    (db : DB) : ApiResult Complaint × DB :=
  if !updateValidationOk b then (.apiError 400 "validation failed", db)
  else
    match db.complaints.find? (fun k => k.id == id && k.user == p.id) with
    | none => (.apiError 404 "Complaint not found", db)
    | some k =>
        let complaints2 := updateFirst (fun c => c.id == id && c.user == p.id) (applySet b) db.complaints
        let db2 := { db with complaints := complaints2 }
        if notifyOk then (.ok 200 (applySet b k), db2)
        else (.apiError 500 "Server error", db2)

/-- Handler of `PATCH /complaints/:id/status` (`auth`): validate (`status` in the
enum — by type here — and `resolution` optional non-empty), load the
complaint by id WITHOUT an ownership filter, reject non-admins with 403,
overwrite `status` unconditionally (there is no current-state check), set
`resolution = {text, by, date}` when provided, and `save()` (running both
hooks).  Then await the status-update email (`notifyOk`). -/
def updateStatus (p : Principal) (id : Nat) (newStatus : Status)
    (resolution : Option String) (notifyOk : Bool) (now : Nat)
    (db : DB) : ApiResult Complaint × DB :=
  if !(match resolution with | some r => !(jsTrim r == "") | none => true) then
    (.apiError 400 "validation failed", db)
  else
    match db.complaints.find? (fun k => k.id == id) with
    | none => (.apiError 404 "Complaint not found", db)
    | some k =>
        if !(p.role == .admin) then
          (.apiError 403 "Not authorized to update complaint status", db)
        else
          let k1 := { k with status := newStatus }
          let k2 :=
            match resolution with
            | some rtext => { k1 with resolution := some ⟨rtext, p.id, now⟩ }
            | none => k1
          let db2 := saveComplaint now k2 db
          if notifyOk then (.ok 200 (preSave now k2), db2)
          else (.apiError 500 "Server error", db2)

/-- Handler of `POST /complaints/:id/share/email` (`auth`): validate the email
(`emailFormatOk` stands for the `isEmail` validator result), load the
complaint by `findById` — NO ownership filter, any authenticated principal
may share any complaint — send the share email (`emailOk`; a throw before
the push is answered 500 with nothing persisted), push `{to, date}` onto
`sharedOn.email` and `save()` (running both hooks). -/
def shareEmail (p : Principal) (id : Nat) (emailAddr : String)
    (emailFormatOk emailOk : Bool) (now : Nat) (db : DB) : ApiResult String × DB :=
  if !emailFormatOk then (.apiError 400 "validation failed", db)
  else
    match db.complaints.find? (fun k => k.id == id) with
    | none => (.apiError 404 "Complaint not found", db)
    | some k =>
        if !emailOk then (.apiError 500 "Server error", db)
        else
          let k2 := { k with sharedEmail := k.sharedEmail ++ [⟨emailAddr, now⟩] }
          let db2 := saveComplaint now k2 db
          (.ok 200 "Complaint shared successfully", db2)

/-- Handler of `POST /complaints/:id/share/social` (`auth`): validate the platform
against the allow-list, load the complaint with `findOne({_id, user})` —
ownership IS required here, a non-owner gets 404 — push
`{platform, date}` onto `sharedOn.social` and `save()`. -/
def shareSocial (p : Principal) (id : Nat) (platform : String) (now : Nat)
    (db : DB) : ApiResult String × DB :=
  if !(["twitter", "facebook", "linkedin"].contains platform) then
    (.apiError 400 "validation failed", db)
  else
    match db.complaints.find? (fun k => k.id == id && k.user == p.id) with
    | none => (.apiError 404 "Complaint not found", db)
    | some k =>
        let k2 := { k with sharedSocial := k.sharedSocial ++ [⟨platform, now⟩] }
        let db2 := saveComplaint now k2 db
        (.ok 200 "Complaint shared on social media successfully", db2)

/-! ## Category controller handlers -/

/-- Controller `deleteCategory`: 404 when the category is missing, 400
("Cannot delete category with existing complaints", the PreconditionFailed
of the spec) when its `totalComplaints > 0`, otherwise remove the
category document and answer 204. -/
def deleteCategory (id : Nat) (db : DB) : ApiResult Unit × DB :=
  match db.categories.find? (fun c => c.cid == id) with
  | none => (.apiError 404 "Category not found", db)
  | some cat =>
      if cat.totalComplaints > 0 then
        (.apiError 400 "Cannot delete category with existing complaints", db)
      else
        let cats2 := removeFirst (fun c => c.cid == id) db.categories
        (.ok 204 (), { db with categories := cats2 })

/-- Controller `deleteSubCategory`: 404 when category or subcategory is missing, 400
("Cannot delete subcategory with existing complaints") when the
subcategory has `totalComplaints > 0`, otherwise pull the subcategory and
`save()` the category. -/
def deleteSubCategory (categoryId subCategoryId : Nat) (now : Nat)
    (db : DB) : ApiResult Unit × DB :=
  match db.categories.find? (fun c => c.cid == categoryId) with
  | none => (.apiError 404 "Category not found", db)
  | some cat =>
      match cat.subCategories.find? (fun s => s.sid == subCategoryId) with
      | none => (.apiError 404 "Subcategory not found", db)
      | some sub =>
          if sub.totalComplaints > 0 then
            (.apiError 400 "Cannot delete subcategory with existing complaints", db)
          else
            let cat2 := { cat with subCategories := removeFirst (fun s => s.sid == subCategoryId) cat.subCategories }
            (.ok 204 (), saveCategory now cat2 db)

/-- JS boolean negation of a possibly-undefined value: `!undefined` is
`true`. -/
def jsNot : Option Bool → Bool
  | none => true
  | some b => !b

/-- Controller `toggleFrequentStatus`: load the category and execute
`category.isFrequentlyUsed = !category.isFrequentlyUsed; await category.save()`.
The category schema declares no `isFrequentlyUsed` path, so on the loaded
document the read yields `undefined` (modelled `none`) — every call
computes `!undefined = true` — and under the default strict mode the
assignment is a plain object property that `save()` does not persist: the
saved document differs from the loaded one only by the pre-save
`updatedAt` bump.  The handler returns the in-memory value it computed. -/
def toggleFrequentStatus (id : Nat) (now : Nat) (db : DB) : ApiResult Bool × DB :=
  match db.categories.find? (fun c => c.cid == id) with
  | none => (.apiError 404 "Category not found", db)
  | some cat =>
      let loadedIsFrequentlyUsed : Option Bool := none
      let computed := jsNot loadedIsFrequentlyUsed
      (.ok 200 computed, saveCategory now cat db)

/-! ## Helper lemmas about the store primitives -/

theorem updateFirst_length {α : Type} (p : α → Bool) (f : α → α) (l : List α) :
    (updateFirst p f l).length = l.length := by
  induction l with
  | nil => rfl
  | cons x xs ih =>
      simp only [updateFirst]
      split <;> simp [ih]

theorem updateFirst_eq_nil_iff {α : Type} (p : α → Bool) (f : α → α) (l : List α) :
    updateFirst p f l = [] ↔ l = [] := by
  constructor
  · intro h
    have := updateFirst_length p f l
    rw [h] at this
    exact List.length_eq_zero.mp this.symm
  · intro h
    simp [h, updateFirst]

theorem find?_updateFirst {α : Type} (p : α → Bool) (f : α → α) (l : List α) (x : α)
    (hfind : l.find? p = some x) (hfx : p (f x) = true) :
    (updateFirst p f l).find? p = some (f x) := by
  induction l with
  | nil => simp [List.find?] at hfind
  | cons a l ih =>
      by_cases ha : p a = true
      · simp only [List.find?, ha, cond_true] at hfind
        cases hfind
        simp [updateFirst, ha, List.find?, hfx]
      · have ha' : p a = false := by
          cases h : p a
          · rfl
          · exact absurd h ha
        simp only [List.find?, ha', cond_false] at hfind
        simp [updateFirst, ha', List.find?, ih hfind]

theorem find?_append_of_none {α : Type} (p : α → Bool) (l₁ l₂ : List α)
    (h : l₁.find? p = none) : (l₁ ++ l₂).find? p = l₂.find? p := by
  induction l₁ with
  | nil => rfl
  | cons a l ih =>
      by_cases ha : p a = true
      · simp [List.find?, ha] at h
      · have ha' : p a = false := by
          cases hb : p a
          · rfl
          · exact absurd hb ha
        simp only [List.find?, ha', cond_false] at h
        simp [List.find?, ha', ih h]

theorem postSaveHook_complaints (now : Nat) (saved : Complaint) (db : DB) :
    (postSaveHook now saved db).complaints = db.complaints := by
  unfold postSaveHook
  cases db.categories.find? (fun c => c.cid == saved.category) <;> simp [saveCategory]

/-- Saving with `await complaint.save()` on a complaint whose id already names a stored
document replaces that document by its pre-save image; looking the id up
afterwards returns that image. -/
theorem find?_saveComplaint {db : DB} {id : Nat} {k : Complaint} (now : Nat) (k2 : Complaint)
    (hfind : db.complaints.find? (fun c => c.id == id) = some k) (hk : k2.id = id) :
    (saveComplaint now k2 db).complaints.find? (fun c => c.id == id) = some (preSave now k2) := by
  subst hk
  have hpk := List.find?_some hfind
  have hmem : k ∈ db.complaints := List.mem_of_find?_eq_some hfind
  have hany : db.complaints.any (fun c => c.id == k2.id) = true :=
    List.any_eq_true.mpr ⟨k, hmem, hpk⟩
  have hid2 : (preSave now k2).id = k2.id := rfl
  unfold saveComplaint
  rw [postSaveHook_complaints]
  simp only [hid2, hany, if_true]
  exact find?_updateFirst _ (fun _ => preSave now k2) db.complaints k hfind (by simp [preSave])

theorem calculateTotalComplaints_userCounts (c : Category) :
    (calculateTotalComplaints c).userCounts = c.userCounts := by
  unfold calculateTotalComplaints
  split <;> rfl

theorem calculateTotalComplaints_subCategories (c : Category) :
    (calculateTotalComplaints c).subCategories = c.subCategories := by
  unfold calculateTotalComplaints
  split <;> rfl

theorem reconcileUserCounts_subCategories (cs : List Complaint) (s : Complaint) (c : Category) :
    (reconcileUserCounts cs s c).subCategories = c.subCategories := by
  unfold reconcileUserCounts
  cases c.userCounts.find? (fun uc => uc.user == s.user) <;> rfl

theorem reconcileUserCounts_totalComplaints (cs : List Complaint) (s : Complaint) (c : Category) :
    (reconcileUserCounts cs s c).totalComplaints = c.totalComplaints := by
  unfold reconcileUserCounts
  cases c.userCounts.find? (fun uc => uc.user == s.user) <;> rfl

/-- When `calculateTotalComplaints` runs on a category that either has a
subcategory or carries counter 0 (every category the system ever builds
satisfies one of the two), the resulting document satisfies
total = sum of subcategory counters. -/
theorem calculateTotalComplaints_spec (c : Category)
    (h : c.subCategories ≠ [] ∨ c.totalComplaints = 0) :
    (calculateTotalComplaints c).totalComplaints
      = ((calculateTotalComplaints c).subCategories.map (·.totalComplaints)).sum := by
  unfold calculateTotalComplaints
  by_cases hlen : c.subCategories.length > 0
  · simp [hlen]
  · have hnil : c.subCategories = [] := by
      cases hsc : c.subCategories with
      | nil => rfl
      | cons a l => rw [hsc] at hlen; simp at hlen
    rcases h with h | h
    · exact absurd hnil h
    · simp [hnil, h]

/-- Saving with `await complaint.save()` on a complaint whose id is fresh appends its
pre-save image to the collection. -/
theorem saveComplaint_fresh (now : Nat) (c : Complaint) (db : DB)
    (hfresh : db.complaints.any (fun k => k.id == c.id) = false) :
    (saveComplaint now c db).complaints = db.complaints ++ [preSave now c] := by
  unfold saveComplaint
  rw [postSaveHook_complaints]
  have h2 : db.complaints.any (fun k => k.id == (preSave now c).id) = false := hfresh
  rw [h2]
  rfl

/-! ## Concrete fixtures -/

/-- A baseline complaint document used by the concrete scenarios; the
individual scenarios override the relevant fields. -/
def baseComplaint : Complaint :=
  { id := 0
    user := 0
    title := "Sample title"
    description := "Sample description"
    category := 0
    subCategory := 0
    status := .pending
    priority := .medium
    priorityValue := 1
    attachments := []
    aiResponse := none
    assignedTo := none
    resolution := none
    comments := []
    sharedEmail := []
    sharedSocial := []
    createdAt := 0
    updatedAt := 0 }

/-- A baseline category document with one subcategory (id 11). -/
def baseCategory : Category :=
  { cid := 1
    name := "Billing"
    icon := "icon"
    descr := "billing issues"
    subCategories := [⟨11, "Refund", "icon", "refund issues", 0, 0, 0⟩]
    totalComplaints := 0
    userCounts := []
    createdAt := 0
    updatedAt := 0 }

/-! ## C1 -/

/-- The filer that creates and then deletes the complaint. -/
def c1Filer : Principal := ⟨5, .user, true⟩

/-- State after user 5 creates complaint 100 under (category 1,
subcategory 11) through `POST /complaints`. -/
def c1DbAfterCreate : DB :=
  (createComplaint c1Filer ⟨"Valid title", "Valid description", some 1, some 11, none, []⟩
    true true 100 1 ⟨[], [baseCategory]⟩).2

/-- State after the filer then hard-deletes their complaint through
`DELETE /complaints/100`. -/
def c1DbAfterDelete : DB := (deleteComplaint c1Filer 100 c1DbAfterCreate).2

/-- C1: the claim says the subcategory counter equals the number of
non-deleted complaints for the pair after each operation and its
reconciliation, in particular after a filer hard-deletes their own
complaint.  The code performs no reconciliation on the delete path
(`findOneAndDelete` fires no save hook): after create-then-delete the
store holds zero complaints for (category 1, subcategory 11) yet the
subcategory and category counters still read 1. -/
theorem c1_delete_leaves_stale_subcategory_count :
    (deleteComplaint c1Filer 100 c1DbAfterCreate).1 = .ok 200 "Complaint deleted successfully"
    ∧ c1DbAfterDelete.complaints = []
    ∧ countDocuments c1DbAfterDelete.complaints (fun k => k.category == 1 && k.subCategory == 11) = 0
    ∧ (c1DbAfterDelete.categories.map
        (fun c => (c.totalComplaints, c.subCategories.map (·.totalComplaints)))) = [(1, [1])] := by
  decide

/-! ## C5 -/

/-- A stored complaint of user 5 with priority medium / priorityValue 1. -/
def c5Stored : Complaint := { baseComplaint with id := 100, user := 5, category := 1, subCategory := 11 }

/-- The `PUT /complaints/100` body `{ priority: "high" }`. -/
def c5Body : UpdateBody := ⟨none, none, none, some .high, none, none, none⟩

/-- C5: the claim says `priorityValue` is recomputed on every write, so
that after the filer-update sets priority to high it reads 2.  The update
route uses `findOneAndUpdate`, which bypasses the pre-save hook: the
stored complaint ends with priority high but priorityValue still 1,
although the pure function maps high to 2. -/
theorem c5_update_leaves_priorityValue_stale :
    (((updateComplaint ⟨5, .user, true⟩ 100 c5Body true ⟨[c5Stored], []⟩).2.complaints.find?
        (fun c => c.id == 100)).map (fun c => (c.priority, c.priorityValue)))
      = some (.high, 1)
    ∧ priorityToValue .high = 2 := by
  decide

/-! ## C9 -/

/-- A category with live counters: subcategory count 2, total 2, one
userCounts entry. -/
def c9Cat : Category :=
  { baseCategory with
      subCategories := [⟨11, "Refund", "icon", "refund issues", 2, 0, 0⟩]
      totalComplaints := 2
      userCounts := [⟨5, 2⟩] }

/-- State after one call of `toggleFrequentStatus` on category 1. -/
def c9DbAfterFirstToggle : DB := (toggleFrequentStatus 1 10 ⟨[], [c9Cat]⟩).2

/-- C9: the claim says the toggle flips a persisted `isFrequentlyUsed`
flag (false to true, then true to false) while changing no counters.  The
category schema declares no such path, so nothing is persisted and every
call computes `!undefined = true`: two successive toggles both report
`true` instead of alternating.  The counters are indeed untouched. -/
theorem c9_toggle_never_persists_flag :
    (toggleFrequentStatus 1 10 ⟨[], [c9Cat]⟩).1 = .ok 200 true
    ∧ (toggleFrequentStatus 1 20 c9DbAfterFirstToggle).1 = .ok 200 true
    ∧ ((toggleFrequentStatus 1 20 c9DbAfterFirstToggle).2.categories.map
        (fun c => (c.totalComplaints, c.subCategories.map (·.totalComplaints), c.userCounts)))
      = [(2, [2], [⟨5, 2⟩])] := by
  decide

/-! ## C2 -/

/-- C2: after a reconciliation run (the post-save hook body) completes on
a category, the category `totalComplaints` equals the sum of the
`totalComplaints` of its embedded subcategories.  The hypothesis rules
out only the degenerate document that has no subcategories yet a non-zero
counter, which no operation of the system ever builds (a category is
created with no subcategories and counter 0, and the counter is only ever
rewritten as a sum of subcategory counters). -/
theorem c2_category_total_eq_sum_after_reconcile (complaints : List Complaint)
    (saved : Complaint) (cat : Category)
    (h : cat.subCategories ≠ [] ∨ cat.totalComplaints = 0) :
    (reconcileCategory complaints saved cat).totalComplaints
      = ((reconcileCategory complaints saved cat).subCategories.map (·.totalComplaints)).sum := by
  unfold reconcileCategory
  apply calculateTotalComplaints_spec
  rcases h with h | h
  · left
    rw [reconcileUserCounts_subCategories]
    show updateFirst _ _ cat.subCategories ≠ []
    intro hnil
    exact h ((updateFirst_eq_nil_iff _ _ _).mp hnil)
  · right
    rw [reconcileUserCounts_totalComplaints]
    exact h

/-- Witness for C2 at a concrete reconciliation run. -/
theorem c2_witness :
    (reconcileCategory [{ baseComplaint with id := 100, user := 5, category := 1, subCategory := 11 }]
        { baseComplaint with id := 100, user := 5, category := 1, subCategory := 11 } baseCategory).totalComplaints
      = ((reconcileCategory [{ baseComplaint with id := 100, user := 5, category := 1, subCategory := 11 }]
          { baseComplaint with id := 100, user := 5, category := 1, subCategory := 11 } baseCategory).subCategories.map
            (·.totalComplaints)).sum :=
  c2_category_total_eq_sum_after_reconcile _ _ baseCategory (Or.inl (by decide))

/-! ## C3 -/

/-- The count stored for user `u` in a category `userCounts` array, if
any: the observable the C3 statements are about. -/
def findUserCountValue (u : Nat) (cat : Category) : Option Nat :=
  (cat.userCounts.find? (fun uc => uc.user == u)).map (·.count)

/-- Two stored complaints of user 5 under category 1. -/
def c3Complaints : List Complaint :=
  [{ baseComplaint with id := 100, user := 5, category := 1, subCategory := 11 },
   { baseComplaint with id := 101, user := 5, category := 1, subCategory := 11 }]

/-- C3 counterexample: the claim says that when the hook finds no
`userCounts` entry for the saved complaint user it creates one with the
freshly computed ground-truth count, never initializing at 1.  Running the
hook for the save of complaint 101 over a store holding two complaints of
user 5 under category 1 (and a category document with no entry for user 5,
as left behind by a reconciliation that earlier found no category
document) creates the entry with count 1 even though the ground-truth
count is 2. -/
theorem c3_counterexample_init_at_one :
    findUserCountValue 5 (reconcileCategory c3Complaints
        { baseComplaint with id := 101, user := 5, category := 1, subCategory := 11 } baseCategory)
      = some 1
    ∧ countDocuments c3Complaints (fun k => k.category == 1 && k.user == 5) = 2
    ∧ findUserCountValue 5 (reconcileCategory c3Complaints
        { baseComplaint with id := 101, user := 5, category := 1, subCategory := 11 } baseCategory)
      ≠ some (countDocuments c3Complaints (fun k => k.category == 1 && k.user == 5)) := by
  decide

/-- C3 amended: when the hook finds no `userCounts` entry for the saved
complaint (category, user), it pushes a fresh entry initialized at
count 1 — not the recomputed ground-truth count; when an entry exists,
its count is recomputed as the number of stored complaints with that
category and user. -/
theorem c3_amended_entry_init_at_one_else_recount (complaints : List Complaint)
    (saved : Complaint) (cat : Category) :
    findUserCountValue saved.user (reconcileCategory complaints saved cat)
      = some (match cat.userCounts.find? (fun uc => uc.user == saved.user) with
              | none => 1
              | some _ =>
                  countDocuments complaints
                    (fun k => k.category == saved.category && k.user == saved.user)) := by
  unfold reconcileCategory findUserCountValue
  rw [calculateTotalComplaints_userCounts]
  have hsub : (reconcileSubCounts complaints saved cat).userCounts = cat.userCounts := rfl
  unfold reconcileUserCounts
  rw [hsub]
  cases hfind : cat.userCounts.find? (fun uc => uc.user == saved.user) with
  | none =>
      simp only
      rw [find?_append_of_none _ _ _ hfind]
      simp [List.find?]
  | some uc =>
      simp only
      have hpuc := List.find?_some hfind
      rw [find?_updateFirst _ _ _ _ hfind (by simpa using hpuc)]
      rfl

/-! ## C4 -/

/-- A stored complaint of user 5 that an admin already resolved. -/
def c4Stored : Complaint :=
  { baseComplaint with id := 100, user := 5, category := 1, subCategory := 11, status := .resolved }

/-- The store holding the resolved complaint. -/
def c4Db : DB := ⟨[c4Stored], []⟩

/-- An admin principal. -/
def c4Admin : Principal := ⟨9, .admin, true⟩

/-- C4 counterexample: the claim says a status transition on a terminal
(resolved) complaint fails with InvalidTransition and leaves the status
unchanged.  The status route checks only that the caller is an admin and
never inspects the current status: an admin moving a resolved complaint
to in-progress gets a 200 and the stored status changes. -/
theorem c4_counterexample_terminal_transition_succeeds :
    (updateStatus c4Admin 100 .inProgress none true 7 c4Db).1.isOk = true
    ∧ (((updateStatus c4Admin 100 .inProgress none true 7 c4Db).2.complaints.find?
        (fun c => c.id == 100)).map (·.status)) = some .inProgress := by
  decide

/-- C4 amended: for every stored complaint — in particular one whose
status is terminal — and every admin principal, the status route succeeds
for any requested status: it answers 200 and overwrites the stored status
with the requested one; no InvalidTransition check exists. -/
theorem c4_amended_admin_overwrites_status (db : DB) (p : Principal) (id now : Nat)
    (ns : Status) (k : Complaint)
    (hrole : p.role = .admin)
    (hfind : db.complaints.find? (fun c => c.id == id) = some k) :
    (updateStatus p id ns none true now db).1 = .ok 200 (preSave now { k with status := ns })
    ∧ (((updateStatus p id ns none true now db).2.complaints.find? (fun c => c.id == id)).map
        (·.status)) = some ns := by
  have hkid : ({ k with status := ns } : Complaint).id = id := by
    have h := List.find?_some hfind
    exact Nat.eq_of_beq_eq_true (by simpa using h)
  constructor
  · unfold updateStatus
    rw [hfind, hrole]
    rfl
  · unfold updateStatus
    rw [hfind, hrole]
    show (((saveComplaint now { k with status := ns } db).complaints.find?
        (fun c => c.id == id)).map (·.status)) = some ns
    rw [find?_saveComplaint now { k with status := ns } hfind hkid]
    rfl

/-- Witness for C4 at the concrete resolved complaint. -/
theorem c4_witness :
    (updateStatus c4Admin 100 Status.inProgress none true 7 c4Db).1
      = .ok 200 (preSave 7 { c4Stored with status := Status.inProgress })
    ∧ (((updateStatus c4Admin 100 Status.inProgress none true 7 c4Db).2.complaints.find?
        (fun c => c.id == 100)).map (·.status)) = some Status.inProgress :=
  c4_amended_admin_overwrites_status c4Db c4Admin 100 7 Status.inProgress c4Stored rfl (by decide)

/-! ## C6 -/

/-- A resolved complaint owned by user 5. -/
def c6Stored : Complaint :=
  { baseComplaint with id := 100, user := 5, category := 1, subCategory := 11, status := .resolved }

/-- The store holding it. -/
def c6Db : DB := ⟨[c6Stored], []⟩

/-- A `PUT /complaints/100` body carrying only `{ status: "pending" }` —
a field outside the title/description/category/priority allow-list. -/
def c6Body : UpdateBody := ⟨none, none, none, none, some .pending, none, none⟩

/-- C6 counterexample: the claim says the filer update accepts patches
only to title/description/category/priority and only while the complaint
is not resolved/rejected, leaving every other field unchanged.  The route
applies `$set: req.body` with no status gate: the owner updating a
RESOLVED complaint with a body containing only `status` succeeds and the
stored status changes. -/
theorem c6_counterexample_update_bypasses_allowlist :
    (updateComplaint ⟨5, .user, true⟩ 100 c6Body true c6Db).1.isOk = true
    ∧ (((updateComplaint ⟨5, .user, true⟩ 100 c6Body true c6Db).2.complaints.find?
        (fun c => c.id == 100)).map (·.status)) = some .pending := by
  decide

/-- C6 amended: the filer update applies every schema field present in
the request body (`$set: req.body`) to the first stored complaint
matching (id, requesting user), regardless of the complaint status
(including resolved/rejected); fields absent from the body — and
`updatedAt` and `priorityValue`, since no save middleware runs — are
unchanged. -/
theorem c6_amended_update_applies_body_fields (db : DB) (p : Principal) (id : Nat)
    (b : UpdateBody) (k : Complaint)
    (hval : updateValidationOk b = true)
    (hfind : db.complaints.find? (fun c => c.id == id && c.user == p.id) = some k) :
    (updateComplaint p id b true db).1 = .ok 200 (applySet b k)
    ∧ ∃ k2, (updateComplaint p id b true db).2.complaints.find?
          (fun c => c.id == id && c.user == p.id) = some k2
        ∧ k2.title = b.title.getD k.title
        ∧ k2.description = b.description.getD k.description
        ∧ k2.category = b.category.getD k.category
        ∧ k2.priority = b.priority.getD k.priority
        ∧ k2.status = b.status.getD k.status
        ∧ k2.priorityValue = b.priorityValue.getD k.priorityValue
        ∧ k2.subCategory = b.subCategory.getD k.subCategory
        ∧ k2.id = k.id ∧ k2.user = k.user
        ∧ k2.attachments = k.attachments ∧ k2.aiResponse = k.aiResponse
        ∧ k2.assignedTo = k.assignedTo ∧ k2.resolution = k.resolution
        ∧ k2.comments = k.comments ∧ k2.sharedEmail = k.sharedEmail
        ∧ k2.sharedSocial = k.sharedSocial
        ∧ k2.createdAt = k.createdAt ∧ k2.updatedAt = k.updatedAt := by
  have hp := List.find?_some hfind
  have hp2 : ((applySet b k).id == id && (applySet b k).user == p.id) = true := by
    simpa [applySet] using hp
  constructor
  · unfold updateComplaint
    rw [hval, hfind]
    rfl
  · refine ⟨applySet b k, ?_, rfl, rfl, rfl, rfl, rfl, rfl, rfl, rfl, rfl, rfl, rfl, rfl,
      rfl, rfl, rfl, rfl, rfl, rfl⟩
    unfold updateComplaint
    rw [hval, hfind]
    show (updateFirst (fun c => c.id == id && c.user == p.id) (applySet b)
        db.complaints).find? (fun c => c.id == id && c.user == p.id) = some (applySet b k)
    exact find?_updateFirst _ _ _ _ hfind hp2

/-- Witness for C6: the amended behaviour at the concrete resolved
complaint and status-only body. -/
theorem c6_witness :
    (updateComplaint ⟨5, .user, true⟩ 100 c6Body true c6Db).1 = .ok 200 (applySet c6Body c6Stored) :=
  (c6_amended_update_applies_body_fields c6Db ⟨5, .user, true⟩ 100 c6Body c6Stored rfl
    (by decide)).1

/-! ## C7 -/

/-- C7 counterexample: the claim says that when the complaint has been
persisted and the notification step then throws, the create operation
still completes successfully and the caller receives the created
complaint.  With a failing notifier, the handler catch-block answers 500
even though the complaint (and its reconciliation) were persisted. -/
theorem c7_counterexample_notification_failure_fails_create :
    (createComplaint ⟨5, .user, true⟩ ⟨"Valid title", "Valid description", some 1, some 11, none, []⟩
        true false 100 1 ⟨[], [baseCategory]⟩).1 = .apiError 500 "Server error"
    ∧ ((createComplaint ⟨5, .user, true⟩ ⟨"Valid title", "Valid description", some 1, some 11, none, []⟩
        true false 100 1 ⟨[], [baseCategory]⟩).2.complaints.map (·.id)) = [100] := by
  decide

/-- C7 amended: when the notification step throws after the complaint has
been persisted, the complaint (with its fields as created) remains in the
store and its reconciliation stands, but the caller receives a 500 Server
error instead of the created complaint — the failure is not swallowed. -/
theorem c7_amended_notification_failure_yields_500 (p : Principal) (i : CreateInput)
    (catId subId newId now : Nat) (db : DB)
    (hver : p.isVerified = true)
    (hval : complaintValidationOk i = true)
    (hcat : i.category = some catId)
    (hsub : i.subCategory = some subId)
    (hfresh : db.complaints.any (fun k => k.id == newId) = false) :
    (createComplaint p i true false newId now db).1 = .apiError 500 "Server error"
    ∧ ∃ k ∈ (createComplaint p i true false newId now db).2.complaints,
        k.id = newId ∧ k.user = p.id ∧ k.title = i.title ∧ k.status = Status.pending := by
  unfold createComplaint
  rw [hver, hval, hcat, hsub]
  refine ⟨rfl, ?_⟩
  show ∃ k ∈ (saveComplaint now
      { id := newId, user := p.id, title := i.title, description := i.description,
        category := catId, subCategory := subId, status := .pending,
        priority := i.priority.getD .medium, priorityValue := 1,
        attachments := i.attachments,
        aiResponse := some ⟨toString catId, aiSuggestionText, 9, 10⟩,
        assignedTo := none, resolution := none, comments := [],
        sharedEmail := [], sharedSocial := [], createdAt := now, updatedAt := now }
      db).complaints,
    k.id = newId ∧ k.user = p.id ∧ k.title = i.title ∧ k.status = Status.pending
  rw [saveComplaint_fresh now _ db hfresh]
  exact ⟨_, List.mem_append_right _ (List.mem_singleton.mpr rfl), rfl, rfl, rfl, rfl⟩

/-- Witness for C7 at a concrete valid creation with a failing notifier. -/
theorem c7_witness :
    (createComplaint ⟨5, .user, true⟩ ⟨"Valid title", "Valid description", some 1, some 11, none, []⟩
        true false 100 1 ⟨[], [baseCategory]⟩).1 = .apiError 500 "Server error"
    ∧ ∃ k ∈ (createComplaint ⟨5, .user, true⟩
          ⟨"Valid title", "Valid description", some 1, some 11, none, []⟩
          true false 100 1 ⟨[], [baseCategory]⟩).2.complaints,
        k.id = 100 ∧ k.user = 5 ∧ k.title = "Valid title" ∧ k.status = Status.pending :=
  c7_amended_notification_failure_yields_500 ⟨5, .user, true⟩
    ⟨"Valid title", "Valid description", some 1, some 11, none, []⟩ 1 11 100 1
    ⟨[], [baseCategory]⟩ rfl (by decide) rfl rfl rfl

/-! ## C8 -/

theorem calculateTotalComplaints_cid (c : Category) :
    (calculateTotalComplaints c).cid = c.cid := by
  unfold calculateTotalComplaints
  split <;> rfl

theorem reconcileUserCounts_cid (cs : List Complaint) (s : Complaint) (c : Category) :
    (reconcileUserCounts cs s c).cid = c.cid := by
  unfold reconcileUserCounts
  cases c.userCounts.find? (fun uc => uc.user == s.user) <;> rfl

theorem reconcileCategory_cid (cs : List Complaint) (s : Complaint) (c : Category) :
    (reconcileCategory cs s c).cid = c.cid := by
  unfold reconcileCategory
  rw [calculateTotalComplaints_cid, reconcileUserCounts_cid]
  rfl

/-- The subcategory array produced by a reconciliation run: the first
subcategory matching the saved complaint gets the ground-truth recount,
the rest are unchanged. -/
theorem reconcileCategory_subCategories (cs : List Complaint) (s : Complaint) (c : Category) :
    (reconcileCategory cs s c).subCategories
      = updateFirst (fun x => x.sid == s.subCategory)
          (fun x => { x with totalComplaints := countDocuments cs (fun k => k.category == s.category && k.subCategory == s.subCategory) })
          c.subCategories := by
  unfold reconcileCategory
  rw [calculateTotalComplaints_subCategories, reconcileUserCounts_subCategories]
  rfl

/-- C8: the category and subcategory delete handlers refuse (400, the
PreconditionFailed of the spec) whenever the target counter is positive
and leave the store unchanged; a category with counter 0 deletes
successfully; and once no complaint references a (category, subcategory)
pair, a reconciliation run for that pair writes counter 0 to the
subcategory, after which its delete succeeds (204). -/
theorem c8_delete_precondition_and_success :
    (∀ (db : DB) (id : Nat) (cat : Category),
        db.categories.find? (fun c => c.cid == id) = some cat →
        0 < cat.totalComplaints →
        deleteCategory id db = (.apiError 400 "Cannot delete category with existing complaints", db))
    ∧ (∀ (db : DB) (cid sid now : Nat) (cat : Category) (sub : SubCategory),
        db.categories.find? (fun c => c.cid == cid) = some cat →
        cat.subCategories.find? (fun s => s.sid == sid) = some sub →
        0 < sub.totalComplaints →
        deleteSubCategory cid sid now db
          = (.apiError 400 "Cannot delete subcategory with existing complaints", db))
    ∧ (∀ (db : DB) (id : Nat) (cat : Category),
        db.categories.find? (fun c => c.cid == id) = some cat →
        cat.totalComplaints = 0 →
        (deleteCategory id db).1 = .ok 204 ())
    ∧ (∀ (db : DB) (now : Nat) (saved : Complaint) (cat : Category) (sub : SubCategory),
        db.categories.find? (fun c => c.cid == saved.category) = some cat →
        cat.subCategories.find? (fun s => s.sid == saved.subCategory) = some sub →
        countDocuments db.complaints
          (fun k => k.category == saved.category && k.subCategory == saved.subCategory) = 0 →
        ((((reconcileCategory db.complaints saved cat).subCategories.find?
            (fun s => s.sid == saved.subCategory)).map (·.totalComplaints)) = some 0)
        ∧ (deleteSubCategory saved.category saved.subCategory now
            { db with categories := updateFirst (fun c => c.cid == saved.category) (fun _ => reconcileCategory db.complaints saved cat) db.categories }).1
          = .ok 204 ()) := by
  refine ⟨?_, ?_, ?_, ?_⟩
  · intro db id cat hfind hpos
    unfold deleteCategory
    rw [hfind]
    simp [hpos]
  · intro db cid sid now cat sub hfindc hfinds hpos
    unfold deleteSubCategory
    rw [hfindc]
    dsimp only
    rw [hfinds]
    simp [hpos]
  · intro db id cat hfind hzero
    unfold deleteCategory
    rw [hfind]
    simp [hzero]
  · intro db now saved cat sub hfindc hfinds hcount
    have hps := List.find?_some hfinds
    have hsub' : ((reconcileCategory db.complaints saved cat).subCategories.find?
        (fun s => s.sid == saved.subCategory))
        = some { sub with totalComplaints := countDocuments db.complaints (fun k => k.category == saved.category && k.subCategory == saved.subCategory) } := by
      rw [reconcileCategory_subCategories]
      exact find?_updateFirst _ _ _ _ hfinds (by simpa using hps)
    have hcid : ((reconcileCategory db.complaints saved cat).cid == saved.category) = true := by
      rw [reconcileCategory_cid]
      have h1 := List.find?_some hfindc
      exact h1
    constructor
    · rw [hsub']
      simp [hcount]
    · unfold deleteSubCategory
      dsimp only
      rw [find?_updateFirst (fun c => c.cid == saved.category)
        (fun _ => reconcileCategory db.complaints saved cat) db.categories cat hfindc hcid]
      dsimp only
      rw [hsub']
      dsimp only
      rw [hcount]
      simp

/-- A subcategory currently counting 5 complaints. -/
def c8SubBusy : SubCategory := ⟨11, "Refund", "icon", "refund issues", 5, 0, 0⟩

/-- A category currently counting 5 complaints under its one subcategory. -/
def c8CatBusy : Category :=
  { baseCategory with subCategories := [c8SubBusy], totalComplaints := 5, userCounts := [⟨5, 5⟩] }

/-- The busy category in a store whose complaints were all hard-deleted
(the counters are stale at 5, the ground truth is 0). -/
def c8DbBusy : DB := ⟨[], [c8CatBusy]⟩

/-- The reconciliation event for the (category 1, subcategory 11) pair. -/
def c8Saved : Complaint := { baseComplaint with id := 100, user := 5, category := 1, subCategory := 11 }

/-- Witness for C8: all four parts at concrete stores. -/
theorem c8_witness :
    deleteCategory 1 c8DbBusy
      = (.apiError 400 "Cannot delete category with existing complaints", c8DbBusy)
    ∧ deleteSubCategory 1 11 7 c8DbBusy
      = (.apiError 400 "Cannot delete subcategory with existing complaints", c8DbBusy)
    ∧ (deleteCategory 1 ⟨[], [baseCategory]⟩).1 = .ok 204 ()
    ∧ ((((reconcileCategory ([] : List Complaint) c8Saved c8CatBusy).subCategories.find?
          (fun s => s.sid == c8Saved.subCategory)).map (·.totalComplaints)) = some 0
       ∧ (deleteSubCategory c8Saved.category c8Saved.subCategory 7
            { complaints := ([] : List Complaint), categories := updateFirst (fun c => c.cid == c8Saved.category) (fun _ => reconcileCategory [] c8Saved c8CatBusy) [c8CatBusy] }).1
          = .ok 204 ()) :=
  ⟨c8_delete_precondition_and_success.1 c8DbBusy 1 c8CatBusy (by decide) (by decide),
   c8_delete_precondition_and_success.2.1 c8DbBusy 1 11 7 c8CatBusy c8SubBusy
     (by decide) (by decide) (by decide),
   c8_delete_precondition_and_success.2.2.1 ⟨[], [baseCategory]⟩ 1 baseCategory
     (by decide) (by decide),
   c8_delete_precondition_and_success.2.2.2 c8DbBusy 7 c8Saved c8CatBusy c8SubBusy
     (by decide) (by decide) (by decide)⟩

/-! ## C10 -/

/-- C10: sharing by email succeeds for EVERY authenticated principal —
the handler loads the complaint by `findById` with no ownership filter —
and appends a `{to, date}` entry to `sharedOn.email`; sharing on social
media filters by `{_id, user}`, so a principal that does not own the
complaint gets 404 ("Complaint not found") and the store is unchanged. -/
theorem c10_share_email_open_social_owner_only :
    (∀ (db : DB) (p : Principal) (id now : Nat) (addr : String) (k : Complaint),
        db.complaints.find? (fun c => c.id == id) = some k →
        (shareEmail p id addr true true now db).1 = .ok 200 "Complaint shared successfully"
        ∧ (((shareEmail p id addr true true now db).2.complaints.find? (fun c => c.id == id)).map
            (·.sharedEmail)) = some (k.sharedEmail ++ [⟨addr, now⟩]))
    ∧ (∀ (db : DB) (p : Principal) (id now : Nat) (platform : String),
        (["twitter", "facebook", "linkedin"].contains platform) = true →
        db.complaints.find? (fun c => c.id == id && c.user == p.id) = none →
        shareSocial p id platform now db = (.apiError 404 "Complaint not found", db)) := by
  constructor
  · intro db p id now addr k hfind
    have hkid : ({ k with sharedEmail := k.sharedEmail ++ [⟨addr, now⟩] } : Complaint).id = id := by
      have h := List.find?_some hfind
      exact Nat.eq_of_beq_eq_true (by simpa using h)
    constructor
    · unfold shareEmail
      rw [hfind]
      rfl
    · unfold shareEmail
      rw [hfind]
      show (((saveComplaint now { k with sharedEmail := k.sharedEmail ++ [⟨addr, now⟩] }
          db).complaints.find? (fun c => c.id == id)).map (·.sharedEmail))
        = some (k.sharedEmail ++ [⟨addr, now⟩])
      rw [find?_saveComplaint now { k with sharedEmail := k.sharedEmail ++ [⟨addr, now⟩] } hfind hkid]
      rfl
  · intro db p id now platform hplat hnone
    unfold shareSocial
    rw [hplat]
    dsimp only
    rw [hnone]
    rfl

/-- Witness for C10: principal 9 — neither owner of complaint 100 (owned
by user 5) nor admin — shares it by email successfully, while that same
principal sharing it on social media gets 404. -/
theorem c10_witness :
    ((shareEmail ⟨9, .user, true⟩ 100 "friend@example.com" true true 7
        ⟨[{ baseComplaint with id := 100, user := 5 }], []⟩).1
      = .ok 200 "Complaint shared successfully"
    ∧ (((shareEmail ⟨9, .user, true⟩ 100 "friend@example.com" true true 7
          ⟨[{ baseComplaint with id := 100, user := 5 }], []⟩).2.complaints.find?
          (fun c => c.id == 100)).map (·.sharedEmail)) = some [⟨"friend@example.com", 7⟩])
    ∧ shareSocial ⟨9, .user, true⟩ 100 "twitter" 7 ⟨[{ baseComplaint with id := 100, user := 5 }], []⟩
        = (.apiError 404 "Complaint not found", ⟨[{ baseComplaint with id := 100, user := 5 }], []⟩) :=
  ⟨c10_share_email_open_social_owner_only.1 ⟨[{ baseComplaint with id := 100, user := 5 }], []⟩
      ⟨9, .user, true⟩ 100 7 "friend@example.com" { baseComplaint with id := 100, user := 5 }
      (by decide),
   c10_share_email_open_social_owner_only.2 ⟨[{ baseComplaint with id := 100, user := 5 }], []⟩
      ⟨9, .user, true⟩ 100 7 "twitter" (by decide) (by decide)⟩

end SpeakUp
